import Mathlib

/-!
Verification of the njsPC-HA entity adapters (custom_components/njspc_ha).

Shallow embedding notes:
- Python dicts with a fixed field set are embedded as structures; a field that
  may be structurally absent (missing key) is an `Option`.
- A nested access such as `data["lightingTheme"]["val"]` is collapsed to one
  optional field holding the inner `val`; absence of either key is `none`.
- Each `_handle_coordinator_update` callback becomes a function
  `State -> Event -> Option (State, Bool)`: `some (s, r)` is normal completion
  with new cached state `s` and `r = true` exactly when `async_write_ha_state`
  (the display-refresh signal) was called; `none` models an uncaught KeyError
  escaping the handler.
- Command dispatch (`coordinator.api.command`) and `logger.error` are modelled
  by returning the list of commands sent and the list of log messages emitted.
- Numbers carried by temperature events are rationals and `round(x, 1)` is
  round-half-to-even on rationals, the idealization of the Python builtin.
- Event kind constants (EVENT_CIRCUIT, ...) live in const.py which is not part
  of the sources; per the spec they are distinct tags, embedded as an inductive.
-/

/-- Modelled from the spec: const.py is not under src/. The spec says events are
tagged by event kind, with dedicated kinds for temps, pump, chlorinator,
circuit, light group, availability and body; they are embedded as distinct
constructors of one inductive type. -/
inductive EventKind where
  | temps
  | pump
  | chlorinator
  | circuit
  | lightgroup
  | availability
  | body
deriving DecidableEq, Repr

/-- Incoming coordinator event `{event: EventKind, id: SubjectId, ...fields}`.
Every field other than the kind tag may be absent from the payload, hence the
options; `temps` holds the numeric key/value pairs of a temps payload. -/
structure Event where
  event : EventKind
  id : Option Nat := none
  isOn : Option Bool := none
  lightingTheme : Option Nat := none
  rpm : Option Nat := none
  watts : Option Nat := none
  available : Option Bool := none
  saltLevel : Option Nat := none
  saltTarget : Option Nat := none
  saltRequired : Option Nat := none
  statusDesc : Option String := none
  typeVal : Option Nat := none
  heatModeVal : Option Nat := none
  heatStatusVal : Option Nat := none
  temps : List (String × ℚ) := []
deriving DecidableEq, Repr

/-- Round-half-to-even of a rational to an integer, the idealization of the
Python builtin `round` on exact values. -/
def pyRoundHalfEven (x : ℚ) : ℤ :=
  if x - (⌊x⌋ : ℚ) < 1/2 then ⌊x⌋
  else if 1/2 < x - (⌊x⌋ : ℚ) then ⌊x⌋ + 1
  else if ⌊x⌋ % 2 = 0 then ⌊x⌋ else ⌊x⌋ + 1

/-- Embedding of `round(x, 1)` as used by TempSensor. -/
def round1 (x : ℚ) : ℚ := (pyRoundHalfEven (10 * x) : ℚ) / 10

/-- Cached state of sensor.py TempSensor: the temps key it displays, the units
name string, and the cached rounded value `self._value`. -/
structure TempSensor where
  key : String
  units : String
  value : ℚ
deriving DecidableEq, Repr

/-- Embedding of sensor.py TempSensor._handle_coordinator_update: any event of
kind temps is accepted (no id comparison in the source); the value under
`self._key` is read from the payload (KeyError, i.e. `none`, when absent),
rounded, cached, and a refresh is signalled. -/
def TempSensor.handle_coordinator_update (s : TempSensor) (e : Event) :
    Option (TempSensor × Bool) :=
  if e.event = EventKind.temps then
    match e.temps.lookup s.key with
    | none => none
    | some v => some ({ s with value := round1 v }, true)
  else some (s, false)

/-- Embedding of sensor.py TempSensor.native_value. -/
def TempSensor.native_value (s : TempSensor) : ℚ := s.value

/-- Configuration record of one pump as read at setup. -/
structure Pump where
  id : Nat
  name : String
  rpm : Nat
  watts : Nat
  minSpeed : Nat
  maxSpeed : Nat
deriving DecidableEq, Repr

/-- Cached state of sensor.py RPMSensor: the bound pump record and the cached
rpm value `self._value`. -/
structure RPMSensor where
  pump : Pump
  value : Nat
deriving DecidableEq, Repr

/-- Embedding of sensor.py RPMSensor.__init__. -/
def RPMSensor.init (p : Pump) : RPMSensor := ⟨p, p.rpm⟩

/-- Embedding of sensor.py RPMSensor._handle_coordinator_update: requires kind
pump and matching id; on a match it reads `data["rpm"]` unconditionally, which
raises KeyError (`none`) when the field is absent. -/
def RPMSensor.handle_coordinator_update (s : RPMSensor) (e : Event) :
    Option (RPMSensor × Bool) :=
  if e.event = EventKind.pump then
    match e.id with
    | none => none
    | some i =>
      if i = s.pump.id then
        match e.rpm with
        | none => none
        | some v => some ({ s with value := v }, true)
      else some (s, false)
  else some (s, false)

/-- Embedding of sensor.py RPMSensor.native_value. -/
def RPMSensor.native_value (s : RPMSensor) : Nat := s.value

/-- Cached state of sensor.py PowerSensor. -/
structure PowerSensor where
  pump : Pump
  value : Nat
deriving DecidableEq, Repr

/-- Embedding of sensor.py PowerSensor._handle_coordinator_update: same filter
as RPMSensor, caching `data["watts"]` instead. -/
def PowerSensor.handle_coordinator_update (s : PowerSensor) (e : Event) :
    Option (PowerSensor × Bool) :=
  if e.event = EventKind.pump then
    match e.id with
    | none => none
    | some i =>
      if i = s.pump.id then
        match e.watts with
        | none => none
        | some v => some ({ s with value := v }, true)
      else some (s, false)
  else some (s, false)

/-- Projection of a chlorinator record to the fields the SaltSensor adapter
reads; after a wholesale replacement by an event payload any of them may be
absent. -/
structure ChlorRec where
  id : Nat
  name : Option String := none
  saltLevel : Option Nat := none
  saltTarget : Option Nat := none
  saltRequired : Option Nat := none
deriving DecidableEq, Repr

/-- Cached state of sensor.py SaltSensor (the also-cached initial `_value` is
never read nor written again and is omitted). -/
structure SaltSensor where
  chlorinator : ChlorRec
deriving DecidableEq, Repr

/-- Embedding of sensor.py SaltSensor._handle_coordinator_update: kind
chlorinator plus matching id replaces the whole cached record by the event
payload. -/
def SaltSensor.handle_coordinator_update (s : SaltSensor) (e : Event) :
    Option (SaltSensor × Bool) :=
  if e.event = EventKind.chlorinator then
    match e.id with
    | none => none
    | some i =>
      if i = s.chlorinator.id then
        some (⟨{ id := i, name := none, saltLevel := e.saltLevel,
                 saltTarget := e.saltTarget, saltRequired := e.saltRequired }⟩, true)
      else some (s, false)
  else some (s, false)

/-- Projection of an equipment record to the fields StatusSensor reads. -/
structure StatusRec where
  id : Nat
  name : Option String := none
  statusDesc : Option String := none
deriving DecidableEq, Repr

/-- Cached state of sensor.py StatusSensor: the bound equipment record and the
event kind chosen at setup (pump or chlorinator). -/
structure StatusSensor where
  equipment : StatusRec
  event : EventKind
deriving DecidableEq, Repr

/-- Embedding of sensor.py StatusSensor._handle_coordinator_update: subscribed
kind plus matching id replaces the whole cached record by the event payload. -/
def StatusSensor.handle_coordinator_update (s : StatusSensor) (e : Event) :
    Option (StatusSensor × Bool) :=
  if e.event = s.event then
    match e.id with
    | none => none
    | some i =>
      if i = s.equipment.id then
        some (⟨{ id := i, name := none, statusDesc := e.statusDesc }, s.event⟩, true)
      else some (s, false)
  else some (s, false)

/-- Value carried by an outbound command besides the subject id: each command
dict in the sources is `{id: ..., <field>: <value>}` with one extra field. -/
inductive CmdVal where
  | num (n : Nat)
  | flag (b : Bool)
deriving DecidableEq, Repr

/-- Outbound command `coordinator.api.command(url, data)` with its single data
field decomposed as field name and value. -/
structure Command where
  url : String
  id : Nat
  field : String
  val : CmdVal
deriving DecidableEq, Repr

/-- Embedding of the reverse lookup idiom
`next((k for k, v in d.items() if v == label), None)`: the first key of the
insertion-ordered table whose value equals the label. -/
def reverseLookup (d : List (Nat × String)) (label : String) : Option Nat :=
  (d.find? (fun p => p.2 = label)).map (fun p => p.1)

/-- Equipment classes used by light.py (const.py PoolEquipmentClass). -/
inductive PoolEquipmentClass where
  | light
  | light_group
deriving DecidableEq, Repr

/-- Modelled from the spec: const.py is not under src/; the API url constants
are route strings, only their distinctness matters here. -/
def API_CIRCUIT_SETSTATE : String := "state/circuit/setState"

/-- Modelled from the spec: const.py is not under src/. -/
def API_CIRCUIT_SETTHEME : String := "state/circuit/setTheme"

/-- Modelled from the spec: const.py is not under src/. -/
def API_LIGHTGROUP_SETSTATE : String := "state/lightGroup/setState"

/-- Configuration record of one circuit or light group as read at setup,
restricted to the fields CircuitLight.__init__ reads. -/
structure CircuitConfig where
  id : Nat
  isOn : Option Bool := none
  lightingThemeVal : Option Nat := none
deriving DecidableEq, Repr

/-- Cached state of light.py CircuitLight: subscribed event kind and command
url (chosen from the equipment class), the bound subject id, the theme table,
and the cached fields `_value`, `_available`, `_lighting_theme`. -/
structure CircuitLight where
  event : EventKind
  command : String
  equipment_id : Nat
  lightthemes : List (Nat × String)
  value : Option Bool
  available : Bool
  lighting_theme : Option Nat
deriving DecidableEq, Repr

/-- Embedding of light.py CircuitLight.__init__. The subject id is taken from
the configuration record. Modelled from the spec: entity.py
(PoolEquipmentEntity) is not under src/; per the spec an adapter binds exactly
one subject for its lifetime, so `equipment_id` is that bound id. -/
def CircuitLight.init (cls : PoolEquipmentClass) (circuit : CircuitConfig)
    (lightthemes : List (Nat × String)) : CircuitLight :=
  { event := match cls with
      | PoolEquipmentClass.light => EventKind.circuit
      | PoolEquipmentClass.light_group => EventKind.lightgroup
    command := match cls with
      | PoolEquipmentClass.light => API_CIRCUIT_SETSTATE
      | PoolEquipmentClass.light_group => API_LIGHTGROUP_SETSTATE
    equipment_id := circuit.id
    lightthemes := lightthemes
    value := circuit.isOn
    available := true
    lighting_theme := circuit.lightingThemeVal }

/-- Embedding of the availability elif branch of light.py
CircuitLight._handle_coordinator_update: reached whenever the first condition
is false; reads `data["available"]` (KeyError when absent), stores it and
signals a refresh. -/
def CircuitLight.availBranch (s : CircuitLight) (e : Event) :
    Option (CircuitLight × Bool) :=
  if e.event = EventKind.availability then
    match e.available with
    | none => none
    | some a => some ({ s with available := a }, true)
  else some (s, false)

/-- Embedding of light.py CircuitLight._handle_coordinator_update. The python
condition is `data["event"] == self._event and data["id"] == self.equipment_id`
with short-circuit evaluation: `data["id"]` is only read (KeyError when
absent) after the kind comparison succeeds; on a match the isOn and
lightingTheme fields are merged only when present; otherwise the availability
elif branch runs. -/
def CircuitLight.handle_coordinator_update (s : CircuitLight) (e : Event) :
    Option (CircuitLight × Bool) :=
  if e.event = s.event then
    match e.id with
    | none => none
    | some i =>
      if i = s.equipment_id then
        some ({ s with
                value := match e.isOn with
                  | some b => some b
                  | none => s.value
                lighting_theme := match e.lightingTheme with
                  | some t => some t
                  | none => s.lighting_theme }, true)
      else s.availBranch e
  else s.availBranch e

/-- Embedding of light.py CircuitLight.async_turn_on, returning the commands
sent and the log messages emitted. When an effect argument is present and the
theme table is nonempty, the label is reverse-looked-up: a miss logs and sends
nothing, a hit sends only the theme command; in every other case the plain
power-on command is sent. -/
def CircuitLight.async_turn_on (s : CircuitLight) (effectArg : Option String) :
    List Command × List String :=
  match effectArg with
  | some label =>
    if s.lightthemes.length > 0 then
      match reverseLookup s.lightthemes label with
      | none => ([], ["Invalid theme for colorlogic light: " ++ label])
      | some k => ([⟨API_CIRCUIT_SETTHEME, s.equipment_id, "theme", CmdVal.num k⟩], [])
    else ([⟨s.command, s.equipment_id, "state", CmdVal.flag true⟩], [])
  | none => ([⟨s.command, s.equipment_id, "state", CmdVal.flag true⟩], [])

/-- Embedding of light.py CircuitLight.async_turn_off. -/
def CircuitLight.async_turn_off (s : CircuitLight) : List Command × List String :=
  ([⟨s.command, s.equipment_id, "state", CmdVal.flag false⟩], [])

/-- Embedding of light.py CircuitLight.effect: the label of the cached theme
code when that code is a key of the theme table, otherwise None (also when the
cached code was never set). -/
def CircuitLight.effect (s : CircuitLight) : Option String :=
  match s.lighting_theme with
  | some t => s.lightthemes.lookup t
  | none => none

/-- Embedding of light.py CircuitLight.effect_list: the theme labels when the
table is nonempty, otherwise None. -/
def CircuitLight.effect_list (s : CircuitLight) : Option (List String) :=
  if s.lightthemes.length > 0 then some (s.lightthemes.map (fun p => p.2)) else none

/-- Numeric value of the homeassistant LightEntityFeature.EFFECT flag. -/
def LightEntityFeature_EFFECT : Nat := 4

/-- Embedding of light.py CircuitLight.supported_features. -/
def CircuitLight.supported_features (s : CircuitLight) : Nat :=
  if s.lightthemes.length > 0 then LightEntityFeature_EFFECT else 0

/-- Subset of the homeassistant HVACAction enumeration used by climate.py. -/
inductive HVACAction where
  | off
  | heating
  | cooling
  | idle
deriving DecidableEq, Repr

/-- Embedding of the climate.py NJSPC_HVAC_ACTION_TO_HASS dict literal. -/
def NJSPC_HVAC_ACTION_TO_HASS : List (Nat × HVACAction) :=
  [(0, HVACAction.off), (1, HVACAction.heating), (2, HVACAction.heating),
   (3, HVACAction.cooling), (4, HVACAction.heating), (6, HVACAction.heating),
   (8, HVACAction.cooling), (128, HVACAction.off)]

/-- Value of the homeassistant HVAC_MODE_AUTO constant. -/
def HVAC_MODE_AUTO : String := "auto"

/-- Projection of a body record to the fields the Climate adapter reads for
the verified properties. Nested accesses `body["type"]["val"]`,
`body["heatMode"]["val"]` and `body["heatStatus"]["val"]` are collapsed to one
optional field each; absence of the outer or the inner key is `none`. -/
structure Body where
  id : Nat
  typeVal : Option Nat := none
  heatModeVal : Option Nat := none
  heatStatusVal : Option Nat := none
deriving DecidableEq, Repr

/-- Cached state of climate.py Climate: the body record, the heat mode table
fetched at setup, and the global units flag (0 = imperial). -/
structure Climate where
  body : Body
  heatmodes : List (Nat × String)
  units : Nat
deriving DecidableEq, Repr

/-- Embedding of climate.py Climate._handle_coordinator_update: kind body plus
matching id replaces the whole cached body record by the event payload and
signals a refresh. -/
def Climate.handle_coordinator_update (s : Climate) (e : Event) :
    Option (Climate × Bool) :=
  if e.event = EventKind.body then
    match e.id with
    | none => none
    | some i =>
      if i = s.body.id then
        some ({ s with body := { id := i, typeVal := e.typeVal,
                                 heatModeVal := e.heatModeVal,
                                 heatStatusVal := e.heatStatusVal } }, true)
      else some (s, false)
  else some (s, false)

/-- Embedding of climate.py Climate.min_temp: branch on the type discriminant
(0 = pool) crossed with the units flag; a structurally absent discriminant is
caught by the bare except and falls back to the pool constants. -/
def Climate.min_temp (s : Climate) : Nat :=
  match s.body.typeVal with
  | some t =>
    if t = 0 then (if s.units = 0 then 70 else 21)
    else (if s.units = 0 then 90 else 32)
  | none => if s.units = 0 then 70 else 21

/-- Embedding of climate.py Climate.max_temp. -/
def Climate.max_temp (s : Climate) : Nat :=
  match s.body.typeVal with
  | some t =>
    if t = 0 then (if s.units = 0 then 95 else 35)
    else (if s.units = 0 then 104 else 40)
  | none => if s.units = 0 then 95 else 35

/-- Embedding of climate.py Climate.hvac_modes. -/
def Climate.hvac_modes (_ : Climate) : List String := [HVAC_MODE_AUTO]

/-- Embedding of climate.py Climate.hvac_mode: always HVAC_MODE_AUTO. -/
def Climate.hvac_mode (_ : Climate) : String := HVAC_MODE_AUTO

/-- Embedding of climate.py Climate.preset_mode: the table label of the cached
heatMode code; any failure (absent field or unknown code) is caught by the
bare except and yields Off. -/
def Climate.preset_mode (s : Climate) : String :=
  match s.body.heatModeVal with
  | some v => (s.heatmodes.lookup v).getD "Off"
  | none => "Off"

/-- Embedding of climate.py Climate.hvac_action: the table entry for the
cached heatStatus code; any failure (absent field or unknown code) is caught
by the bare except and yields HVACAction.OFF. -/
def Climate.hvac_action (s : Climate) : HVACAction :=
  match s.body.heatStatusVal with
  | some v => (NJSPC_HVAC_ACTION_TO_HASS.lookup v).getD HVACAction.off
  | none => HVACAction.off

/-- Embedding of climate.py Climate.async_set_hvac_mode: the body is a bare
return (the remainder is commented out in the source), so no command is sent
and nothing is logged for any argument. -/
def Climate.async_set_hvac_mode (_ : Climate) (_ : String) :
    List Command × List String :=
  ([], [])

/-- Embedding of climate.py Climate.async_set_preset_mode: reverse lookup of
the label in the heat mode table; a miss logs an error and sends nothing, a
hit sends one command to state/body/heatMode. -/
def Climate.async_set_preset_mode (s : Climate) (preset_mode : String) :
    List Command × List String :=
  match reverseLookup s.heatmodes preset_mode with
  | none => ([], ["Invalid mode for set_hvac_mode: " ++ preset_mode])
  | some k => ([⟨"state/body/heatMode", s.body.id, "mode", CmdVal.num k⟩], [])

/-- Concrete pump record with id 7 for the scenario claims. -/
def pumpSeven : Pump := ⟨7, "Pump 7", 1500, 300, 450, 3450⟩

/-- Concrete pump record with id 8 for the scenario claims. -/
def pumpEight : Pump := ⟨8, "Pump 8", 1450, 280, 450, 3450⟩

/-- Concrete pump event carrying rpm 2200 for subject 7. -/
def pumpEventSeven : Event := { event := EventKind.pump, id := some 7, rpm := some 2200 }

/-- Concrete pump event for subject 7 whose payload carries no rpm field. -/
def pumpEventNoRpm : Event := { event := EventKind.pump, id := some 7 }

/-- Concrete temperature sensor bound to the airTemp key. -/
def airSensor : TempSensor := ⟨"airTemp", "F", 75⟩

/-- Concrete temps event that also carries an id field. -/
def tempsEventWithId : Event :=
  { event := EventKind.temps, id := some 42, temps := [("airTemp", 80)] }

/-- Concrete light adapter whose theme table is empty. -/
def emptyThemeLight : CircuitLight :=
  CircuitLight.init PoolEquipmentClass.light ⟨11, some false, none⟩ []

/-- Concrete light group adapter whose theme table is empty. -/
def emptyThemeGroup : CircuitLight :=
  CircuitLight.init PoolEquipmentClass.light_group ⟨12, some false, none⟩ []

/-- Concrete light adapter with the two-entry theme table of the spec
scenario. -/
def partyLight : CircuitLight :=
  CircuitLight.init PoolEquipmentClass.light ⟨5, some true, some 2⟩
    [(0, "Off"), (4, "Party")]

/-- Concrete climate adapter: pool body 1, imperial units, two heat modes. -/
def poolClimate : Climate :=
  ⟨⟨1, some 0, some 1, some 1⟩, [(1, "Off"), (3, "Heater")], 0⟩

/-- Concrete salt sensor bound to chlorinator 2. -/
def saltSensorTwo : SaltSensor := ⟨⟨2, some "Chlor", some 3100, some 3400, some 0⟩⟩

/-- Concrete status sensor bound to chlorinator 2. -/
def statusSensorTwo : StatusSensor := ⟨⟨2, some "Chlor", some "Ok"⟩, EventKind.chlorinator⟩

/-- Concrete power sensor bound to pump 7. -/
def powerSensorSeven : PowerSensor := ⟨pumpSeven, 300⟩

theorem pyRoundHalfEven_intCast (n : ℤ) : pyRoundHalfEven (n : ℚ) = n := by
  simp [pyRoundHalfEven]

theorem round1_intCast (n : ℤ) : round1 (n : ℚ) = n := by
  unfold round1
  have h : (10 : ℚ) * (n : ℚ) = ((10 * n : ℤ) : ℚ) := by push_cast; ring
  rw [h, pyRoundHalfEven_intCast]
  push_cast
  ring

/-- C3: for every heat-status code in the lookup table the hvac_action
property returns exactly the table value (OFF for 0 and 128, COOLING for 3 and
8, HEATING for 1, 2, 4 and 6); for every code outside the table, and when the
heatStatus field is absent, it returns HVACAction.OFF and no error escapes
(the embedding of the property is total). -/
theorem C3_hvac_action_table :
    (∀ s : Climate, s.body.heatStatusVal = some 0 → s.hvac_action = HVACAction.off) ∧
    (∀ s : Climate, s.body.heatStatusVal = some 1 → s.hvac_action = HVACAction.heating) ∧
    (∀ s : Climate, s.body.heatStatusVal = some 2 → s.hvac_action = HVACAction.heating) ∧
    (∀ s : Climate, s.body.heatStatusVal = some 3 → s.hvac_action = HVACAction.cooling) ∧
    (∀ s : Climate, s.body.heatStatusVal = some 4 → s.hvac_action = HVACAction.heating) ∧
    (∀ s : Climate, s.body.heatStatusVal = some 6 → s.hvac_action = HVACAction.heating) ∧
    (∀ s : Climate, s.body.heatStatusVal = some 8 → s.hvac_action = HVACAction.cooling) ∧
    (∀ s : Climate, s.body.heatStatusVal = some 128 → s.hvac_action = HVACAction.off) ∧
    (∀ (s : Climate) (v : Nat), s.body.heatStatusVal = some v →
        v ∉ [0, 1, 2, 3, 4, 6, 8, 128] → s.hvac_action = HVACAction.off) ∧
    (∀ s : Climate, s.body.heatStatusVal = none → s.hvac_action = HVACAction.off) := by
  refine ⟨?_, ?_, ?_, ?_, ?_, ?_, ?_, ?_, ?_, ?_⟩
  case _ => intro s h; simp [Climate.hvac_action, h, NJSPC_HVAC_ACTION_TO_HASS, List.lookup]
  case _ => intro s h; simp [Climate.hvac_action, h, NJSPC_HVAC_ACTION_TO_HASS, List.lookup]
  case _ => intro s h; simp [Climate.hvac_action, h, NJSPC_HVAC_ACTION_TO_HASS, List.lookup]
  case _ => intro s h; simp [Climate.hvac_action, h, NJSPC_HVAC_ACTION_TO_HASS, List.lookup]
  case _ => intro s h; simp [Climate.hvac_action, h, NJSPC_HVAC_ACTION_TO_HASS, List.lookup]
  case _ => intro s h; simp [Climate.hvac_action, h, NJSPC_HVAC_ACTION_TO_HASS, List.lookup]
  case _ => intro s h; simp [Climate.hvac_action, h, NJSPC_HVAC_ACTION_TO_HASS, List.lookup]
  case _ => intro s h; simp [Climate.hvac_action, h, NJSPC_HVAC_ACTION_TO_HASS, List.lookup]
  case _ =>
    intro s v h hv
    simp only [List.mem_cons, List.not_mem_nil, or_false, not_or] at hv
    obtain ⟨h0, h1, h2, h3, h4, h6, h8, h128⟩ := hv
    simp [Climate.hvac_action, h, NJSPC_HVAC_ACTION_TO_HASS, List.lookup,
      beq_eq_false_iff_ne.mpr h0, beq_eq_false_iff_ne.mpr h1,
      beq_eq_false_iff_ne.mpr h2, beq_eq_false_iff_ne.mpr h3,
      beq_eq_false_iff_ne.mpr h4, beq_eq_false_iff_ne.mpr h6,
      beq_eq_false_iff_ne.mpr h8, beq_eq_false_iff_ne.mpr h128]
  case _ => intro s h; simp [Climate.hvac_action, h]

/-- C3 witness: the table lookups, an unknown code 5 and an absent heatStatus
field, at concrete climate states. -/
theorem C3_hvac_action_table_witness :
    Climate.hvac_action ⟨⟨1, some 0, some 1, some 3⟩, [], 0⟩ = HVACAction.cooling ∧
    Climate.hvac_action ⟨⟨1, some 0, some 1, some 0⟩, [], 0⟩ = HVACAction.off ∧
    Climate.hvac_action ⟨⟨1, some 0, some 1, some 1⟩, [], 0⟩ = HVACAction.heating ∧
    Climate.hvac_action ⟨⟨1, some 0, some 1, some 2⟩, [], 0⟩ = HVACAction.heating ∧
    Climate.hvac_action ⟨⟨1, some 0, some 1, some 4⟩, [], 0⟩ = HVACAction.heating ∧
    Climate.hvac_action ⟨⟨1, some 0, some 1, some 6⟩, [], 0⟩ = HVACAction.heating ∧
    Climate.hvac_action ⟨⟨1, some 0, some 1, some 8⟩, [], 0⟩ = HVACAction.cooling ∧
    Climate.hvac_action ⟨⟨1, some 0, some 1, some 128⟩, [], 0⟩ = HVACAction.off ∧
    Climate.hvac_action ⟨⟨1, some 0, some 1, some 5⟩, [], 0⟩ = HVACAction.off ∧
    Climate.hvac_action ⟨⟨1, some 0, some 1, none⟩, [], 0⟩ = HVACAction.off := by
  obtain ⟨t0, t1, t2, t3, t4, t6, t8, t128, tout, tnone⟩ := C3_hvac_action_table
  exact ⟨t3 _ rfl, t0 _ rfl, t1 _ rfl, t2 _ rfl, t4 _ rfl, t6 _ rfl, t8 _ rfl,
    t128 _ rfl, tout _ 5 rfl (by decide), tnone _ rfl⟩

/-- C4: min_temp and max_temp return one of four fixed constant pairs chosen
by the body type discriminant (0 = pool) crossed with the units flag
(0 = imperial); a structurally absent discriminant yields the pool pair for
the current units and no error propagates (the embedding is total). -/
theorem C4_min_max_temp_table :
    (∀ s : Climate, s.body.typeVal = some 0 → s.units = 0 →
        s.min_temp = 70 ∧ s.max_temp = 95) ∧
    (∀ (s : Climate) (t : Nat), s.body.typeVal = some t → t ≠ 0 → s.units = 0 →
        s.min_temp = 90 ∧ s.max_temp = 104) ∧
    (∀ s : Climate, s.body.typeVal = some 0 → s.units ≠ 0 →
        s.min_temp = 21 ∧ s.max_temp = 35) ∧
    (∀ (s : Climate) (t : Nat), s.body.typeVal = some t → t ≠ 0 → s.units ≠ 0 →
        s.min_temp = 32 ∧ s.max_temp = 40) ∧
    (∀ s : Climate, s.body.typeVal = none → s.units = 0 →
        s.min_temp = 70 ∧ s.max_temp = 95) ∧
    (∀ s : Climate, s.body.typeVal = none → s.units ≠ 0 →
        s.min_temp = 21 ∧ s.max_temp = 35) := by
  refine ⟨?_, ?_, ?_, ?_, ?_, ?_⟩
  case _ => intro s h hu; simp [Climate.min_temp, Climate.max_temp, h, hu]
  case _ => intro s t h ht hu; simp [Climate.min_temp, Climate.max_temp, h, ht, hu]
  case _ => intro s h hu; simp [Climate.min_temp, Climate.max_temp, h, hu]
  case _ => intro s t h ht hu; simp [Climate.min_temp, Climate.max_temp, h, ht, hu]
  case _ => intro s h hu; simp [Climate.min_temp, Climate.max_temp, h, hu]
  case _ => intro s h hu; simp [Climate.min_temp, Climate.max_temp, h, hu]

/-- C4 witness: the four constant pairs and the two missing-discriminant
fallbacks at concrete climate states. -/
theorem C4_min_max_temp_table_witness :
    (Climate.min_temp ⟨⟨1, some 0, none, none⟩, [], 0⟩ = 70 ∧
      Climate.max_temp ⟨⟨1, some 0, none, none⟩, [], 0⟩ = 95) ∧
    (Climate.min_temp ⟨⟨1, some 1, none, none⟩, [], 0⟩ = 90 ∧
      Climate.max_temp ⟨⟨1, some 1, none, none⟩, [], 0⟩ = 104) ∧
    (Climate.min_temp ⟨⟨1, some 0, none, none⟩, [], 1⟩ = 21 ∧
      Climate.max_temp ⟨⟨1, some 0, none, none⟩, [], 1⟩ = 35) ∧
    (Climate.min_temp ⟨⟨1, some 1, none, none⟩, [], 1⟩ = 32 ∧
      Climate.max_temp ⟨⟨1, some 1, none, none⟩, [], 1⟩ = 40) ∧
    (Climate.min_temp ⟨⟨1, none, none, none⟩, [], 0⟩ = 70 ∧
      Climate.max_temp ⟨⟨1, none, none, none⟩, [], 0⟩ = 95) ∧
    (Climate.min_temp ⟨⟨1, none, none, none⟩, [], 1⟩ = 21 ∧
      Climate.max_temp ⟨⟨1, none, none, none⟩, [], 1⟩ = 35) := by
  obtain ⟨p1, p2, p3, p4, p5, p6⟩ := C4_min_max_temp_table
  exact ⟨p1 _ rfl rfl, p2 _ 1 rfl (by decide) rfl, p3 _ rfl (by decide),
    p4 _ 1 rfl (by decide) (by decide), p5 _ rfl rfl, p6 _ rfl (by decide)⟩

/-- C7: the event pump/id 7/rpm 2200 delivered to the RPM sensor bound to pump
7 caches native_value 2200 and signals a refresh; delivered to the RPM sensor
bound to pump 8 it leaves the cached state unchanged and signals no
refresh. -/
theorem C7_pump_rpm_scenario :
    RPMSensor.handle_coordinator_update (RPMSensor.init pumpSeven) pumpEventSeven
        = some (⟨pumpSeven, 2200⟩, true) ∧
    RPMSensor.native_value ⟨pumpSeven, 2200⟩ = 2200 ∧
    RPMSensor.handle_coordinator_update (RPMSensor.init pumpEight) pumpEventSeven
        = some (RPMSensor.init pumpEight, false) := by decide

/-- C8: preset_mode returns the heat mode table label of the cached heatMode
code when the code is a key of the table, and the default Off when the field
is structurally absent or the code is not a key; the embedding is total, so no
error propagates. -/
theorem C8_preset_mode_soft_default :
    (∀ (s : Climate) (v : Nat) (l : String), s.body.heatModeVal = some v →
        s.heatmodes.lookup v = some l → s.preset_mode = l) ∧
    (∀ (s : Climate) (v : Nat), s.body.heatModeVal = some v →
        s.heatmodes.lookup v = none → s.preset_mode = "Off") ∧
    (∀ s : Climate, s.body.heatModeVal = none → s.preset_mode = "Off") := by
  refine ⟨?_, ?_, ?_⟩
  case _ => intro s v l h hl; simp [Climate.preset_mode, h, hl]
  case _ => intro s v h hl; simp [Climate.preset_mode, h, hl]
  case _ => intro s h; simp [Climate.preset_mode, h]

/-- C8 witness: a known code, an unknown code and an absent heatMode field on
the concrete pool climate adapter. -/
theorem C8_preset_mode_soft_default_witness :
    Climate.preset_mode poolClimate = "Off" ∧
    Climate.preset_mode ⟨⟨1, some 0, some 9, some 1⟩, [(1, "Off"), (3, "Heater")], 0⟩
        = "Off" ∧
    Climate.preset_mode ⟨⟨1, some 0, none, some 1⟩, [(1, "Off"), (3, "Heater")], 0⟩
        = "Off" := by
  obtain ⟨k1, k2, k3⟩ := C8_preset_mode_soft_default
  exact ⟨k1 poolClimate 1 "Off" rfl (by decide), k2 _ 9 rfl (by decide), k3 _ rfl⟩

/-- C9: hvac_mode is the constant HVAC_MODE_AUTO, hvac_modes is the
one-element list holding it, and async_set_hvac_mode sends no command and logs
nothing for every climate state and every argument. -/
theorem C9_hvac_mode_noop :
    ∀ (s : Climate) (m : String),
      s.hvac_mode = HVAC_MODE_AUTO ∧ s.hvac_modes = [HVAC_MODE_AUTO] ∧
      s.async_set_hvac_mode m = ([], []) := by
  intro s m
  exact ⟨rfl, rfl, rfl⟩

/-- C10: supported_features equals the EFFECT flag exactly when the theme
table is nonempty (otherwise it is 0); an empty table makes effect_list None;
and effect is None whenever the cached theme code is not a key of the table,
including when it was never set. -/
theorem C10_light_effect_surface :
    (∀ s : CircuitLight,
        s.supported_features = LightEntityFeature_EFFECT ↔ s.lightthemes ≠ []) ∧
    (∀ s : CircuitLight, s.lightthemes = [] → s.supported_features = 0) ∧
    (∀ s : CircuitLight, s.lightthemes = [] → s.effect_list = none) ∧
    (∀ s : CircuitLight, s.lighting_theme = none → s.effect = none) ∧
    (∀ (s : CircuitLight) (t : Nat), s.lighting_theme = some t →
        s.lightthemes.lookup t = none → s.effect = none) := by
  refine ⟨?_, ?_, ?_, ?_, ?_⟩
  case _ =>
    intro s
    rcases h : s.lightthemes with _ | ⟨p, l⟩
    · simp [CircuitLight.supported_features, h, LightEntityFeature_EFFECT]
    · simp [CircuitLight.supported_features, h]
  case _ => intro s h; simp [CircuitLight.supported_features, h]
  case _ => intro s h; simp [CircuitLight.effect_list, h]
  case _ => intro s h; simp [CircuitLight.effect, h]
  case _ => intro s t h hl; simp [CircuitLight.effect, h, hl]

/-- C10 witness: the feature flag, effect list and effect defaults on the
concrete empty-table light and on the party light with an unknown cached
code. -/
theorem C10_light_effect_surface_witness :
    (CircuitLight.supported_features partyLight = LightEntityFeature_EFFECT ↔
        partyLight.lightthemes ≠ []) ∧
    CircuitLight.supported_features emptyThemeLight = 0 ∧
    CircuitLight.effect_list emptyThemeLight = none ∧
    CircuitLight.effect emptyThemeLight = none ∧
    CircuitLight.effect partyLight = none := by
  obtain ⟨w1, w2, w3, w4, w5⟩ := C10_light_effect_surface
  exact ⟨w1 partyLight, w2 _ rfl, w3 _ rfl, w4 _ rfl, w5 partyLight 2 rfl (by decide)⟩

/-- C1 counterexample: the claim requires, outside the availability kind, an
id match between event and adapter for any cached-state change; the
temperature sensor updates its cached state on any temps-kind event with no id
comparison at all (the delivered event carries id 42, the sensor subscribes to
a payload key, not to an id), and temps is not the availability kind. -/
theorem C1_counterexample_temps_ignores_id :
    TempSensor.handle_coordinator_update airSensor tempsEventWithId
        = some (⟨"airTemp", "F", 80⟩, true) ∧
    (⟨"airTemp", "F", 80⟩ : TempSensor) ≠ airSensor ∧
    tempsEventWithId.id = some 42 ∧
    tempsEventWithId.event ≠ EventKind.availability := by
  have h : round1 80 = 80 := by
    have h0 := round1_intCast 80
    push_cast at h0
    exact h0
  refine ⟨?_, by decide, by decide, by decide⟩
  simp [TempSensor.handle_coordinator_update, airSensor, tempsEventWithId,
    List.lookup, h]

/-- C1 amended: for every event and adapter, the cached state is rewritten and
a refresh signalled exactly when the event kind equals the subscribed kind and
the event id matches the bound subject id, with two kind-only exceptions: the
availability kind (light adapters update only the available flag, no id
comparison) and the temps kind (temperature sensors update on kind alone, no
id comparison); on every non-matching event the cached state is returned
unchanged with no refresh. -/
theorem C1_event_filter_amended :
    (∀ (s : CircuitLight) (e : Event), e.event ≠ s.event →
        e.event ≠ EventKind.availability →
        s.handle_coordinator_update e = some (s, false)) ∧
    (∀ (s : CircuitLight) (e : Event) (i : Nat), e.event = s.event →
        e.id = some i → i ≠ s.equipment_id → e.event ≠ EventKind.availability →
        s.handle_coordinator_update e = some (s, false)) ∧
    (∀ (s : CircuitLight) (e : Event), e.event = s.event →
        e.id = some s.equipment_id →
        s.handle_coordinator_update e =
          some ({ s with
                  value := match e.isOn with
                    | some b => some b
                    | none => s.value
                  lighting_theme := match e.lightingTheme with
                    | some t => some t
                    | none => s.lighting_theme }, true)) ∧
    (∀ (s : CircuitLight) (e : Event) (a : Bool), e.event ≠ s.event →
        e.event = EventKind.availability → e.available = some a →
        s.handle_coordinator_update e = some ({ s with available := a }, true)) ∧
    (∀ (s : TempSensor) (e : Event), e.event ≠ EventKind.temps →
        s.handle_coordinator_update e = some (s, false)) ∧
    (∀ (s : TempSensor) (e : Event) (v : ℚ), e.event = EventKind.temps →
        e.temps.lookup s.key = some v →
        s.handle_coordinator_update e = some ({ s with value := round1 v }, true)) ∧
    (∀ (s : RPMSensor) (e : Event), e.event ≠ EventKind.pump →
        s.handle_coordinator_update e = some (s, false)) ∧
    (∀ (s : RPMSensor) (e : Event) (i : Nat), e.event = EventKind.pump →
        e.id = some i → i ≠ s.pump.id →
        s.handle_coordinator_update e = some (s, false)) ∧
    (∀ (s : RPMSensor) (e : Event) (v : Nat), e.event = EventKind.pump →
        e.id = some s.pump.id → e.rpm = some v →
        s.handle_coordinator_update e = some ({ s with value := v }, true)) ∧
    (∀ (s : PowerSensor) (e : Event), e.event ≠ EventKind.pump →
        s.handle_coordinator_update e = some (s, false)) ∧
    (∀ (s : PowerSensor) (e : Event) (i : Nat), e.event = EventKind.pump →
        e.id = some i → i ≠ s.pump.id →
        s.handle_coordinator_update e = some (s, false)) ∧
    (∀ (s : PowerSensor) (e : Event) (v : Nat), e.event = EventKind.pump →
        e.id = some s.pump.id → e.watts = some v →
        s.handle_coordinator_update e = some ({ s with value := v }, true)) ∧
    (∀ (s : SaltSensor) (e : Event), e.event ≠ EventKind.chlorinator →
        s.handle_coordinator_update e = some (s, false)) ∧
    (∀ (s : SaltSensor) (e : Event) (i : Nat), e.event = EventKind.chlorinator →
        e.id = some i → i ≠ s.chlorinator.id →
        s.handle_coordinator_update e = some (s, false)) ∧
    (∀ (s : SaltSensor) (e : Event), e.event = EventKind.chlorinator →
        e.id = some s.chlorinator.id →
        s.handle_coordinator_update e =
          some (⟨{ id := s.chlorinator.id, name := none, saltLevel := e.saltLevel,
                   saltTarget := e.saltTarget, saltRequired := e.saltRequired }⟩, true)) ∧
    (∀ (s : StatusSensor) (e : Event), e.event ≠ s.event →
        s.handle_coordinator_update e = some (s, false)) ∧
    (∀ (s : StatusSensor) (e : Event) (i : Nat), e.event = s.event →
        e.id = some i → i ≠ s.equipment.id →
        s.handle_coordinator_update e = some (s, false)) ∧
    (∀ (s : StatusSensor) (e : Event), e.event = s.event →
        e.id = some s.equipment.id →
        s.handle_coordinator_update e =
          some (⟨{ id := s.equipment.id, name := none,
                   statusDesc := e.statusDesc }, s.event⟩, true)) ∧
    (∀ (s : Climate) (e : Event), e.event ≠ EventKind.body →
        s.handle_coordinator_update e = some (s, false)) ∧
    (∀ (s : Climate) (e : Event) (i : Nat), e.event = EventKind.body →
        e.id = some i → i ≠ s.body.id →
        s.handle_coordinator_update e = some (s, false)) ∧
    (∀ (s : Climate) (e : Event), e.event = EventKind.body →
        e.id = some s.body.id →
        s.handle_coordinator_update e =
          some ({ s with body := { id := s.body.id, typeVal := e.typeVal,
                                   heatModeVal := e.heatModeVal,
                                   heatStatusVal := e.heatStatusVal } }, true)) := by
  refine ⟨?_, ?_, ?_, ?_, ?_, ?_, ?_, ?_, ?_, ?_, ?_, ?_, ?_, ?_, ?_, ?_, ?_,
    ?_, ?_, ?_, ?_⟩
  case _ =>
    intro s e h1 h2
    simp [CircuitLight.handle_coordinator_update, CircuitLight.availBranch, h1, h2]
  case _ =>
    intro s e i h1 h2 h3 h4
    rw [h1] at h4
    simp [CircuitLight.handle_coordinator_update, CircuitLight.availBranch,
      h1, h2, h3, h4]
  case _ =>
    intro s e h1 h2
    simp [CircuitLight.handle_coordinator_update, h1, h2]
  case _ =>
    intro s e a h1 h2 h3
    rw [h2] at h1
    simp [CircuitLight.handle_coordinator_update, CircuitLight.availBranch,
      h1, h2, h3]
  case _ =>
    intro s e h
    simp [TempSensor.handle_coordinator_update, h]
  case _ =>
    intro s e v h1 h2
    simp [TempSensor.handle_coordinator_update, h1, h2]
  case _ =>
    intro s e h
    simp [RPMSensor.handle_coordinator_update, h]
  case _ =>
    intro s e i h1 h2 h3
    simp [RPMSensor.handle_coordinator_update, h1, h2, h3]
  case _ =>
    intro s e v h1 h2 h3
    simp [RPMSensor.handle_coordinator_update, h1, h2, h3]
  case _ =>
    intro s e h
    simp [PowerSensor.handle_coordinator_update, h]
  case _ =>
    intro s e i h1 h2 h3
    simp [PowerSensor.handle_coordinator_update, h1, h2, h3]
  case _ =>
    intro s e v h1 h2 h3
    simp [PowerSensor.handle_coordinator_update, h1, h2, h3]
  case _ =>
    intro s e h
    simp [SaltSensor.handle_coordinator_update, h]
  case _ =>
    intro s e i h1 h2 h3
    simp [SaltSensor.handle_coordinator_update, h1, h2, h3]
  case _ =>
    intro s e h1 h2
    simp [SaltSensor.handle_coordinator_update, h1, h2]
  case _ =>
    intro s e h
    simp [StatusSensor.handle_coordinator_update, h]
  case _ =>
    intro s e i h1 h2 h3
    simp [StatusSensor.handle_coordinator_update, h1, h2, h3]
  case _ =>
    intro s e h1 h2
    simp [StatusSensor.handle_coordinator_update, h1, h2]
  case _ =>
    intro s e h
    simp [Climate.handle_coordinator_update, h]
  case _ =>
    intro s e i h1 h2 h3
    simp [Climate.handle_coordinator_update, h1, h2, h3]
  case _ =>
    intro s e h1 h2
    simp [Climate.handle_coordinator_update, h1, h2]

/-- C1 witness: every conjunct of the amended event filter theorem applied at
a concrete adapter and event. -/
theorem C1_event_filter_amended_witness :
    partyLight.handle_coordinator_update { event := EventKind.pump, id := some 5 }
        = some (partyLight, false) ∧
    partyLight.handle_coordinator_update { event := EventKind.circuit, id := some 6 }
        = some (partyLight, false) ∧
    partyLight.handle_coordinator_update
        { event := EventKind.circuit, id := some 5, isOn := some false }
        = some ({ partyLight with value := some false }, true) ∧
    partyLight.handle_coordinator_update
        { event := EventKind.availability, available := some false }
        = some ({ partyLight with available := false }, true) ∧
    airSensor.handle_coordinator_update { event := EventKind.body }
        = some (airSensor, false) ∧
    airSensor.handle_coordinator_update tempsEventWithId
        = some ({ airSensor with value := round1 80 }, true) ∧
    (RPMSensor.init pumpSeven).handle_coordinator_update { event := EventKind.temps }
        = some (RPMSensor.init pumpSeven, false) ∧
    (RPMSensor.init pumpEight).handle_coordinator_update pumpEventSeven
        = some (RPMSensor.init pumpEight, false) ∧
    (RPMSensor.init pumpSeven).handle_coordinator_update pumpEventSeven
        = some ({ RPMSensor.init pumpSeven with value := 2200 }, true) ∧
    powerSensorSeven.handle_coordinator_update { event := EventKind.chlorinator }
        = some (powerSensorSeven, false) ∧
    (⟨pumpEight, 280⟩ : PowerSensor).handle_coordinator_update
        { event := EventKind.pump, id := some 7, watts := some 325 }
        = some (⟨pumpEight, 280⟩, false) ∧
    powerSensorSeven.handle_coordinator_update
        { event := EventKind.pump, id := some 7, watts := some 325 }
        = some ({ powerSensorSeven with value := 325 }, true) ∧
    saltSensorTwo.handle_coordinator_update { event := EventKind.pump }
        = some (saltSensorTwo, false) ∧
    saltSensorTwo.handle_coordinator_update
        { event := EventKind.chlorinator, id := some 3 }
        = some (saltSensorTwo, false) ∧
    saltSensorTwo.handle_coordinator_update
        { event := EventKind.chlorinator, id := some 2, saltLevel := some 3000 }
        = some (⟨{ id := 2, name := none, saltLevel := some 3000,
                   saltTarget := none, saltRequired := none }⟩, true) ∧
    statusSensorTwo.handle_coordinator_update { event := EventKind.pump }
        = some (statusSensorTwo, false) ∧
    statusSensorTwo.handle_coordinator_update
        { event := EventKind.chlorinator, id := some 9 }
        = some (statusSensorTwo, false) ∧
    statusSensorTwo.handle_coordinator_update
        { event := EventKind.chlorinator, id := some 2, statusDesc := some "Fault" }
        = some (⟨{ id := 2, name := none, statusDesc := some "Fault" },
                 EventKind.chlorinator⟩, true) ∧
    poolClimate.handle_coordinator_update { event := EventKind.circuit }
        = some (poolClimate, false) ∧
    poolClimate.handle_coordinator_update { event := EventKind.body, id := some 2 }
        = some (poolClimate, false) ∧
    poolClimate.handle_coordinator_update
        { event := EventKind.body, id := some 1, typeVal := some 0,
          heatModeVal := some 3, heatStatusVal := some 1 }
        = some ({ poolClimate with
                  body := { id := 1, typeVal := some 0, heatModeVal := some 3,
                            heatStatusVal := some 1 } }, true) := by
  obtain ⟨l1, l2, l3, l4, t1, t2, r1, r2, r3, w1, w2, w3, s1, s2, s3, u1, u2,
    u3, c1, c2, c3⟩ := C1_event_filter_amended
  refine ⟨?_, ?_, ?_, ?_, ?_, ?_, ?_, ?_, ?_, ?_, ?_, ?_, ?_, ?_, ?_, ?_, ?_,
    ?_, ?_, ?_, ?_⟩
  case _ => exact l1 partyLight _ (by decide) (by decide)
  case _ => exact l2 partyLight _ 6 (by decide) rfl (by decide) (by decide)
  case _ => simpa using l3 partyLight _ (by decide) (by decide)
  case _ => exact l4 partyLight _ false (by decide) rfl rfl
  case _ => exact t1 airSensor _ (by decide)
  case _ => exact t2 airSensor tempsEventWithId 80 (by decide) (by decide)
  case _ => exact r1 _ _ (by decide)
  case _ => exact r2 _ pumpEventSeven 7 (by decide) (by decide) (by decide)
  case _ => exact r3 _ pumpEventSeven 2200 (by decide) (by decide) (by decide)
  case _ => exact w1 _ _ (by decide)
  case _ => exact w2 _ _ 7 (by decide) rfl (by decide)
  case _ => exact w3 _ _ 325 (by decide) (by decide) rfl
  case _ => exact s1 _ _ (by decide)
  case _ => exact s2 _ _ 3 (by decide) rfl (by decide)
  case _ => simpa using s3 saltSensorTwo _ (by decide) (by decide)
  case _ => exact u1 _ _ (by decide)
  case _ => exact u2 _ _ 9 (by decide) rfl (by decide)
  case _ => simpa using u3 statusSensorTwo _ (by decide) (by decide)
  case _ => exact c1 _ _ (by decide)
  case _ => exact c2 _ _ 2 (by decide) rfl (by decide)
  case _ => simpa using c3 poolClimate _ (by decide) (by decide)

/-- C2 counterexample: a matching pump event whose payload carries no rpm
field (the empty subset of the tracked fields) makes the RPM sensor handler
raise KeyError instead of completing with the cached value retained, because
the source reads data rpm unconditionally on a match. -/
theorem C2_counterexample_rpm_absent :
    RPMSensor.handle_coordinator_update (RPMSensor.init pumpSeven) pumpEventNoRpm
        = none ∧
    pumpEventNoRpm.event = EventKind.pump ∧
    pumpEventNoRpm.id = some pumpSeven.id ∧
    pumpEventNoRpm.rpm = none := by decide

/-- C2 amended: the light adapter merges matching events non-destructively:
the handler completes, each tracked field absent from the payload keeps its
cached value, and no other cached field changes; the RPM adapter however
requires the rpm field on every matching event and raises KeyError when it is
absent (when present the handler completes and replaces the cached value while
the bound pump record is untouched). -/
theorem C2_partial_merge_amended :
    (∀ (s : CircuitLight) (e : Event), e.event = s.event →
        e.id = some s.equipment_id →
        ∃ s2 : CircuitLight, s.handle_coordinator_update e = some (s2, true) ∧
          (e.isOn = none → s2.value = s.value) ∧
          (∀ b, e.isOn = some b → s2.value = some b) ∧
          (e.lightingTheme = none → s2.lighting_theme = s.lighting_theme) ∧
          (∀ t, e.lightingTheme = some t → s2.lighting_theme = some t) ∧
          s2.available = s.available ∧ s2.lightthemes = s.lightthemes ∧
          s2.event = s.event ∧ s2.command = s.command ∧
          s2.equipment_id = s.equipment_id) ∧
    (∀ (s : RPMSensor) (e : Event), e.event = EventKind.pump →
        e.id = some s.pump.id → e.rpm = none →
        s.handle_coordinator_update e = none) ∧
    (∀ (s : RPMSensor) (e : Event) (v : Nat), e.event = EventKind.pump →
        e.id = some s.pump.id → e.rpm = some v →
        s.handle_coordinator_update e = some ({ s with value := v }, true) ∧
          ({ s with value := v } : RPMSensor).pump = s.pump) := by
  refine ⟨?_, ?_, ?_⟩
  case _ =>
    intro s e h1 h2
    refine ⟨{ s with
              value := match e.isOn with
                | some b => some b
                | none => s.value
              lighting_theme := match e.lightingTheme with
                | some t => some t
                | none => s.lighting_theme },
      by simp [CircuitLight.handle_coordinator_update, h1, h2],
      ?_, ?_, ?_, ?_, rfl, rfl, rfl, rfl, rfl⟩
    case _ => intro h; simp [h]
    case _ => intro b h; simp [h]
    case _ => intro h; simp [h]
    case _ => intro t h; simp [h]
  case _ =>
    intro s e h1 h2 h3
    simp [RPMSensor.handle_coordinator_update, h1, h2, h3]
  case _ =>
    intro s e v h1 h2 h3
    exact ⟨by simp [RPMSensor.handle_coordinator_update, h1, h2, h3], rfl⟩

/-- C2 witness: the light conjunct at a matching event carrying only isOn, and
the RPM conjuncts at a matching event without rpm and one with rpm 2300. -/
theorem C2_partial_merge_amended_witness :
    (∃ s2 : CircuitLight,
        partyLight.handle_coordinator_update
            { event := EventKind.circuit, id := some 5, isOn := some false }
          = some (s2, true) ∧
        s2.lighting_theme = partyLight.lighting_theme ∧
        s2.value = some false ∧ s2.available = partyLight.available ∧
        s2.lightthemes = partyLight.lightthemes) ∧
    RPMSensor.handle_coordinator_update (RPMSensor.init pumpEight)
        { event := EventKind.pump, id := some 8 } = none ∧
    RPMSensor.handle_coordinator_update (RPMSensor.init pumpEight)
        { event := EventKind.pump, id := some 8, rpm := some 2300 }
      = some ({ RPMSensor.init pumpEight with value := 2300 }, true) := by
  obtain ⟨hl, hr0, hr1⟩ := C2_partial_merge_amended
  refine ⟨?_, ?_, ?_⟩
  case _ =>
    obtain ⟨s2, he, hn, hs, htn, hts, hav, hth, _, _, _⟩ :=
      hl partyLight { event := EventKind.circuit, id := some 5, isOn := some false }
        (by decide) (by decide)
    exact ⟨s2, he, htn rfl, hs false rfl, hav, hth⟩
  case _ =>
    exact hr0 (RPMSensor.init pumpEight) _ (by decide) (by decide) rfl
  case _ =>
    exact (hr1 (RPMSensor.init pumpEight) _ 2300 (by decide) (by decide) rfl).1

/-- C5 counterexample: on a light adapter whose theme table is empty, no code
maps to the requested label Party, yet the turn-on request with that effect
does send a command (the plain power-on command) and logs nothing, against the
claimed no-command-plus-log behaviour. -/
theorem C5_counterexample_empty_theme_table :
    reverseLookup emptyThemeLight.lightthemes "Party" = none ∧
    (emptyThemeLight.async_turn_on (some "Party")).1
        = [⟨API_CIRCUIT_SETSTATE, 11, "state", CmdVal.flag true⟩] ∧
    (emptyThemeLight.async_turn_on (some "Party")).2 = [] := by decide

/-- C5 amended: when some code maps to the selected label, exactly one command
carrying the subject id and the looked-up code is sent and nothing is logged;
when no code maps, the climate adapter and any light adapter with a nonempty
theme table send nothing and log one error; a light adapter with an empty
theme table instead ignores the effect and sends the plain power-on
command without logging. -/
theorem C5_reverse_lookup_amended :
    (∀ (s : Climate) (label : String) (k : Nat),
        reverseLookup s.heatmodes label = some k →
        s.async_set_preset_mode label =
          ([⟨"state/body/heatMode", s.body.id, "mode", CmdVal.num k⟩], [])) ∧
    (∀ (s : Climate) (label : String),
        reverseLookup s.heatmodes label = none →
        s.async_set_preset_mode label =
          ([], ["Invalid mode for set_hvac_mode: " ++ label])) ∧
    (∀ (s : CircuitLight) (label : String) (k : Nat), s.lightthemes ≠ [] →
        reverseLookup s.lightthemes label = some k →
        s.async_turn_on (some label) =
          ([⟨API_CIRCUIT_SETTHEME, s.equipment_id, "theme", CmdVal.num k⟩], [])) ∧
    (∀ (s : CircuitLight) (label : String), s.lightthemes ≠ [] →
        reverseLookup s.lightthemes label = none →
        s.async_turn_on (some label) =
          ([], ["Invalid theme for colorlogic light: " ++ label])) ∧
    (∀ (s : CircuitLight) (label : String), s.lightthemes = [] →
        s.async_turn_on (some label) =
          ([⟨s.command, s.equipment_id, "state", CmdVal.flag true⟩], [])) := by
  refine ⟨?_, ?_, ?_, ?_, ?_⟩
  case _ => intro s label k h; simp [Climate.async_set_preset_mode, h]
  case _ => intro s label h; simp [Climate.async_set_preset_mode, h]
  case _ =>
    intro s label k h1 h2
    simp [CircuitLight.async_turn_on, List.length_pos.mpr h1, h2]
  case _ =>
    intro s label h1 h2
    simp [CircuitLight.async_turn_on, List.length_pos.mpr h1, h2]
  case _ => intro s label h; simp [CircuitLight.async_turn_on, h]

/-- C5 witness: the climate hit and miss on the pool adapter, and the light
hit, miss and empty-table cases on the party and empty-table lights. -/
theorem C5_reverse_lookup_amended_witness :
    poolClimate.async_set_preset_mode "Heater"
        = ([⟨"state/body/heatMode", 1, "mode", CmdVal.num 3⟩], []) ∧
    poolClimate.async_set_preset_mode "Party"
        = ([], ["Invalid mode for set_hvac_mode: " ++ "Party"]) ∧
    partyLight.async_turn_on (some "Party")
        = ([⟨API_CIRCUIT_SETTHEME, 5, "theme", CmdVal.num 4⟩], []) ∧
    partyLight.async_turn_on (some "Disco")
        = ([], ["Invalid theme for colorlogic light: " ++ "Disco"]) ∧
    emptyThemeGroup.async_turn_on (some "Party")
        = ([⟨emptyThemeGroup.command, emptyThemeGroup.equipment_id, "state",
             CmdVal.flag true⟩], []) := by
  obtain ⟨p1, p2, p3, p4, p5⟩ := C5_reverse_lookup_amended
  exact ⟨p1 poolClimate "Heater" 3 (by decide), p2 poolClimate "Party" (by decide),
    p3 partyLight "Party" 4 (by decide) (by decide),
    p4 partyLight "Disco" (by decide) (by decide),
    p5 emptyThemeGroup "Party" (by decide)⟩

/-- C6 counterexample: a turn-on request carrying the effect Party on a light
group adapter with an empty theme table sends exactly the plain power-on
command, although the claim says the power-on command is never sent when an
effect argument is specified. -/
theorem C6_counterexample_power_on_sent :
    (emptyThemeGroup.async_turn_on (some "Party")).1
        = [⟨API_LIGHTGROUP_SETSTATE, 12, "state", CmdVal.flag true⟩] := by decide

/-- C6 amended: when an effect argument is specified and the theme table is
nonempty, every command the turn-on request sends is a theme-set command (so
the plain power-on command is never sent); when the theme table is empty the
effect argument is ignored and the plain power-on command is sent. -/
theorem C6_effect_supersedes_amended :
    (∀ (s : CircuitLight) (label : String) (c : Command), s.lightthemes ≠ [] →
        c ∈ (s.async_turn_on (some label)).1 →
        c.url = API_CIRCUIT_SETTHEME ∧ c.field = "theme") ∧
    (∀ (s : CircuitLight) (label : String), s.lightthemes = [] →
        s.async_turn_on (some label) =
          ([⟨s.command, s.equipment_id, "state", CmdVal.flag true⟩], [])) := by
  refine ⟨?_, ?_⟩
  case _ =>
    intro s label c h1 h2
    rw [CircuitLight.async_turn_on] at h2
    simp only [List.length_pos.mpr h1, if_pos] at h2
    rcases h3 : reverseLookup s.lightthemes label with _ | k
    · rw [h3] at h2; simp at h2
    · rw [h3] at h2
      simp only [List.mem_singleton] at h2
      subst h2
      exact ⟨rfl, rfl⟩
  case _ => intro s label h; simp [CircuitLight.async_turn_on, h]

/-- C6 witness: the theme-set command sent by the party light for the Party
effect is the only command and has the theme-set url and field, and the
empty-table light group sends the plain power-on command. -/
theorem C6_effect_supersedes_amended_witness :
    (∀ c ∈ (partyLight.async_turn_on (some "Party")).1,
        c.url = API_CIRCUIT_SETTHEME ∧ c.field = "theme") ∧
    emptyThemeGroup.async_turn_on (some "Party")
        = ([⟨emptyThemeGroup.command, emptyThemeGroup.equipment_id, "state",
             CmdVal.flag true⟩], []) := by
  obtain ⟨q1, q2⟩ := C6_effect_supersedes_amended
  exact ⟨fun c hc => q1 partyLight "Party" c (by decide) hc,
    q2 emptyThemeGroup "Party" (by decide)⟩

/-- C9 witness: the HVAC mode surface evaluated on the concrete pool climate
adapter for an arbitrary argument. -/
theorem C9_hvac_mode_noop_witness :
    poolClimate.hvac_mode = HVAC_MODE_AUTO ∧
    poolClimate.hvac_modes = [HVAC_MODE_AUTO] ∧
    poolClimate.async_set_hvac_mode "heat" = ([], []) :=
  C9_hvac_mode_noop poolClimate "heat"
